import Mathlib

/-!
Shallow embedding of `src/library_cli.py` (poojitha6698/LibraryManagementSystem).

The Python program is a CLI over a Supabase store with three tables:
`books`, `members`, `borrow_records`.  We model the store as three Lean
lists together with the id counters the database would maintain and a
clock value `now` standing for the `now()` of the database (used as the
default `borrow_date` on insert and as the written `return_date`).

Each Supabase round trip (`select ... execute`, `update ... execute`,
`insert ... execute`, `delete ... execute`) is modelled as one atomic
operation on the `Store`; the Python functions are then direct sequential
compositions of those operations, mirroring the source line by line.
-/

namespace LibraryCLI

/-- Row of the `books` table: id assigned by the store, display fields,
and the integer stock counter. -/
structure Book where
  book_id : Nat
  title : String
  author : String
  category : String
  stock : Int
deriving DecidableEq, Repr

/-- Row of the `members` table. -/
structure Member where
  member_id : Nat
  name : String
  email : String
deriving DecidableEq, Repr

/-- Row of the `borrow_records` table. `return_date = none` means the
loan is open; the database fills `borrow_date` with `now()` on insert. -/
structure BorrowRecord where
  record_id : Nat
  member_id : Nat
  book_id : Nat
  borrow_date : Nat
  return_date : Option Nat
deriving DecidableEq, Repr

/-- The shared persistent store: the three tables, the id sequences the
database uses to assign `book_id` / `member_id` / `record_id`, and the
store clock `now`. -/
structure Store where
  books : List Book
  members : List Member
  borrow_records : List BorrowRecord
  next_book_id : Nat
  next_member_id : Nat
  next_record_id : Nat
  now : Nat
deriving DecidableEq, Repr

/-- One atomic `sb.table("books").update({"stock": v}).eq("book_id", book_id)`:
writes the literal value `v` into every `books` row whose id matches. -/
def write_stock (book_id : Nat) (v : Int) (s : Store) : Store :=
  { s with
    books := s.books.map fun b =>
      if b.book_id = book_id then { b with stock := v } else b }

/-- One atomic `sb.table("borrow_records").insert({"member_id": ..., "book_id": ...})`:
the store assigns `record_id` from its sequence and defaults
`borrow_date` to `now()`, `return_date` to null. -/
def insert_record (member_id book_id : Nat) (s : Store) : Store :=
  { s with
    borrow_records := s.borrow_records ++
      [{ record_id := s.next_record_id, member_id := member_id, book_id := book_id,
         borrow_date := s.now, return_date := none }],
    next_record_id := s.next_record_id + 1 }

/-- Lines 15-17: `add_member(name, email)` inserts a row and returns it. -/
def add_member (s : Store) (name email : String) : Store × Member :=
  let m : Member := { member_id := s.next_member_id, name := name, email := email }
  ({ s with members := s.members ++ [m], next_member_id := s.next_member_id + 1 }, m)

/-- Lines 19-21: `add_book(title, author, category, stock=1)` inserts a
row and returns it; the Python signature defaults `stock` to 1. -/
def add_book (s : Store) (title author category : String) (stock : Int := 1) :
    Store × Book :=
  let b : Book := { book_id := s.next_book_id, title := title, author := author,
                    category := category, stock := stock }
  ({ s with books := s.books ++ [b], next_book_id := s.next_book_id + 1 }, b)

/-- Lines 54-56: `update_book_stock(book_id, new_stock)` is one
unconditional update writing `new_stock`; `resp.data` echoes the updated
rows. There is no validation of `new_stock` anywhere in the function. -/
def update_book_stock (book_id : Nat) (new_stock : Int) (s : Store) :
    Store × List Book :=
  let s1 := write_stock book_id new_stock s
  (s1, s1.books.filter (fun b => b.book_id = book_id))

/-- Outcome of `delete_member` / `delete_book`: the refusal message
("Cannot delete ...") when open borrows exist, else the deletion. -/
inductive DeleteResult
  | conflict
  | deleted
deriving DecidableEq, Repr

/-- Lines 65-71: `delete_member` selects the borrow records of the member with
`return_date` null; if any exist it refuses, otherwise it deletes the row. -/
def delete_member (member_id : Nat) (s : Store) : Store × DeleteResult :=
  let open_borrows := s.borrow_records.filter
    (fun r => r.member_id = member_id ∧ r.return_date = none)
  if open_borrows.isEmpty then
    ({ s with members := s.members.filter (fun m => ¬ m.member_id = member_id) },
     .deleted)
  else
    (s, .conflict)

/-- Lines 73-79: `delete_book`, same guard keyed on `book_id`. -/
def delete_book (book_id : Nat) (s : Store) : Store × DeleteResult :=
  let open_borrows := s.borrow_records.filter
    (fun r => r.book_id = book_id ∧ r.return_date = none)
  if open_borrows.isEmpty then
    ({ s with books := s.books.filter (fun b => ¬ b.book_id = book_id) },
     .deleted)
  else
    (s, .conflict)

/-- Outcome of `borrow_book`: the three printed messages of lines 87, 90, 94. -/
inductive BorrowResult
  | notFound
  | notAvailable
  | success
deriving DecidableEq, Repr

/-- Line 85: the first store round trip of `borrow_book` —
`select("stock").eq("book_id", book_id)`; `none` when no row matches,
otherwise the stock of the first matching row (`book[0]["stock"]`). -/
def borrow_read (book_id : Nat) (s : Store) : Option Int :=
  ((s.books.filter (fun b => b.book_id = book_id)).map Book.stock).head?

/-- Lines 89-94 of `borrow_book`, after the read: the local check
`stock <= 0`, then the unconditional write of the locally computed
`read_stock - 1` (line 92) followed by the record insert (line 93).
Split from the read because the read and the write are separate store
round trips, between which operations of other callers can interleave. -/
def borrow_commit (member_id book_id : Nat) (read_stock : Int) (s : Store) :
    Store × BorrowResult :=
  if read_stock ≤ 0 then (s, .notAvailable)
  else (insert_record member_id book_id (write_stock book_id (read_stock - 1) s),
        .success)

/-- Lines 84-94: `borrow_book(member_id, book_id)` is the read followed
immediately by the commit. -/
def borrow_book (member_id book_id : Nat) (s : Store) : Store × BorrowResult :=
  match borrow_read book_id s with
  | none => (s, .notFound)
  | some st => borrow_commit member_id book_id st s

/-- Outcome of `borrow_book` when the record insert of line 93 raises:
`borrow_book` has no try/except, so the exception propagates.  The first
two constructors mirror the early returns of lines 87 and 90. -/
inductive BorrowFaultResult
  | notFound
  | notAvailable
  | insertRaised
deriving DecidableEq, Repr

/-- Execution of `borrow_book` on the run where the insert of line 93
raises.  Everything up to and including the stock write of line 92 has
already executed; there is no except clause and no compensating write, so
the function aborts with the stock already written. -/
def borrow_book_insert_raises (member_id book_id : Nat) (s : Store) :
    Store × BorrowFaultResult :=
  match borrow_read book_id s with
  | none => (s, .notFound)
  | some st =>
    if st ≤ 0 then (s, .notAvailable)
    else (write_stock book_id (st - 1) s, .insertRaised)

/-- Outcome of `return_book`: the message "No active borrow found." of line 99, the
IndexError raised by `.data[0]` on line 103 when the book row is gone,
or the success message of line 105 carrying the id of the closed record. -/
inductive ReturnResult
  | noActiveBorrow
  | indexError
  | success (record_id : Nat)
deriving DecidableEq, Repr

/-- Filter of line 97: open borrow records of the pair
(`eq member_id`, `eq book_id`, `return_date` is null). -/
def open_for (member_id book_id : Nat) (r : BorrowRecord) : Prop :=
  r.member_id = member_id ∧ r.book_id = book_id ∧ r.return_date = none

instance (member_id book_id : Nat) (r : BorrowRecord) :
    Decidable (open_for member_id book_id r) := by
  unfold open_for; infer_instance

/-- Lines 96-105: `return_book` selects the open records of the pair with
`limit(1)` — no ordering clause, so it takes the first matching row in
table order — closes it by writing `return_date = now()` keyed on its
`record_id`, re-reads the stock of the book, and writes `stock + 1`
unconditionally. -/
def return_book (member_id book_id : Nat) (s : Store) : Store × ReturnResult :=
  match (s.borrow_records.filter (fun r => open_for member_id book_id r)).take 1 with
  | [] => (s, .noActiveBorrow)
  | r0 :: _ =>
    let rec_id := r0.record_id
    let s1 : Store := { s with
      borrow_records := s.borrow_records.map fun r =>
        if r.record_id = rec_id then { r with return_date := some s.now } else r }
    match borrow_read book_id s1 with
    | none => (s1, .indexError)
    | some st => (write_stock book_id (st + 1) s1, .success rec_id)

/-- Lines 111-116 of `report_top_borrowed`: the joined rows — one row per
borrow record, carrying `book_id` and the title and author of the joined book
(`select("book_id, books(title, author)")`). -/
def report_rows (s : Store) : List (Nat × String × String) :=
  s.borrow_records.filterMap (fun r =>
    (s.books.find? (fun b => b.book_id == r.book_id)).map
      (fun b => (r.book_id, b.title, b.author)))

/-- Lines 119-123: `counts[key] = counts.get(key, 0) + 1` on a Python
dict — increment in place if the key is present, else append it at the
end, so keys stay in first-occurrence order. -/
def bump_count (key : Nat × String × String) :
    List ((Nat × String × String) × Nat) → List ((Nat × String × String) × Nat)
  | [] => [(key, 1)]
  | (k, c) :: rest =>
    if k = key then (k, c + 1) :: rest else (k, c) :: bump_count key rest

/-- The whole counting loop of lines 119-123 over the joined rows. -/
def count_rows (rows : List (Nat × String × String)) :
    List ((Nat × String × String) × Nat) :=
  rows.foldl (fun acc r => bump_count r acc) []

/-- Stable insertion keeping counts descending: the element goes in front
of the first entry whose count is ≤ its own, so entries with equal counts
keep their original relative order — the behaviour of the stable Python
`sorted(..., key=lambda x: x[1], reverse=True)` on line 126. -/
def insert_desc (x : (Nat × String × String) × Nat) :
    List ((Nat × String × String) × Nat) → List ((Nat × String × String) × Nat)
  | [] => [x]
  | y :: ys => if y.2 ≤ x.2 then x :: y :: ys else y :: insert_desc x ys

/-- The line 126 call `sorted(counts.items(), key=lambda x: x[1], reverse=True)`
as a stable insertion sort. -/
def sort_desc (l : List ((Nat × String × String) × Nat)) :
    List ((Nat × String × String) × Nat) :=
  l.foldr insert_desc []

/-- Lines 110-134: `report_top_borrowed(limit)` — join, count per
`(book_id, title, author)` key in first-occurrence order, stable-sort
descending by count, truncate to `limit`. -/
def report_top_borrowed (limit : Nat) (s : Store) :
    List ((Nat × String × String) × Nat) :=
  (sort_desc (count_rows (report_rows s))).take limit

/-- The book ids of the report, in report order. -/
def top_borrowed_ids (limit : Nat) (s : Store) : List Nat :=
  (report_top_borrowed limit s).map (fun p => p.1.1)

/-- Invariant of the data model: every book row has non-negative stock. -/
def stocks_nonneg (s : Store) : Prop := ∀ b ∈ s.books, 0 ≤ b.stock

instance (s : Store) : Decidable (stocks_nonneg s) := by
  unfold stocks_nonneg; infer_instance

/-- Number of Closed borrow records (return_date set) of the given
(member, book) pair in the store. -/
def closed_count (member_id book_id : Nat) (s : Store) : Nat :=
  (s.borrow_records.filter fun r =>
    r.member_id = member_id ∧ r.book_id = book_id ∧ ¬ r.return_date = none).length

/-- A book row with the given id and stock, fixed display fields. -/
def exBook (i : Nat) (st : Int) : Book := ⟨i, "t", "a", "c", st⟩

/-- Store holding exactly one book (id 1) with stock 1. -/
def storeOne : Store := ⟨[exBook 1 1], [], [], 2, 0, 0, 100⟩

/-- Store holding exactly one book (id 1) with stock 3. -/
def storeStock3 : Store := ⟨[exBook 1 3], [], [], 2, 0, 0, 100⟩

/-- Store with one book of stock 2 and one already Closed borrow record
of the pair (member 5, book 1). -/
def storeClosedRec : Store := ⟨[exBook 1 2], [], [⟨0, 5, 1, 0, some 1⟩], 2, 0, 1, 100⟩

/-- An always-open borrow record of member 7 for the given book. -/
def exRec (rid bid : Nat) : BorrowRecord := ⟨rid, 7, bid, 0, none⟩

/-- Report example, records of book 1 first: counts are book 1 -> 3,
book 2 -> 3, book 3 -> 1. -/
def storeReportA : Store :=
  ⟨[exBook 1 0, exBook 2 0, exBook 3 0], [],
   [exRec 0 1, exRec 1 1, exRec 2 1, exRec 3 2, exRec 4 2, exRec 5 2, exRec 6 3],
   4, 0, 7, 100⟩

/-- Report example with the same count profile (book 1 -> 3, book 2 -> 3,
book 3 -> 1) but the records of book 2 listed first. -/
def storeReportB : Store :=
  ⟨[exBook 1 0, exBook 2 0, exBook 3 0], [],
   [exRec 0 2, exRec 1 2, exRec 2 2, exRec 3 1, exRec 4 1, exRec 5 1, exRec 6 3],
   4, 0, 7, 100⟩

/-- Store with two Open borrow records of the pair (member 5, book 1):
the first in table order has borrow_date 10, the second the strictly
earlier borrow_date 5. -/
def storeTwoOpen : Store :=
  ⟨[exBook 1 0], [], [⟨1, 5, 1, 10, none⟩, ⟨2, 5, 1, 5, none⟩], 2, 0, 3, 100⟩

/-! ### Helper lemmas -/

/-- Unfolding of `borrow_book` on the success path: once the read of line
85 returned `st > 0`, the result is the unconditional write of `st - 1`
followed by the record insert. -/
theorem borrow_book_pos (member_id book_id : Nat) (s : Store) (st : Int)
    (hread : borrow_read book_id s = some st) (hpos : 0 < st) :
    borrow_book member_id book_id s =
      (insert_record member_id book_id (write_stock book_id (st - 1) s),
       BorrowResult.success) := by
  unfold borrow_book
  rw [hread]
  show borrow_commit member_id book_id st s = _
  unfold borrow_commit
  rw [if_neg (by omega)]

/-- Unfolding of `return_book` when the filter of line 97 is non-empty:
the first matching record in table order is the one closed. -/
theorem return_book_cons (member_id book_id : Nat) (s : Store) (r0 : BorrowRecord)
    (rest : List BorrowRecord)
    (hfilter : s.borrow_records.filter (fun r => open_for member_id book_id r) = r0 :: rest) :
    return_book member_id book_id s =
      match borrow_read book_id { s with
          borrow_records := s.borrow_records.map fun r =>
            if r.record_id = r0.record_id then { r with return_date := some s.now } else r } with
      | none =>
        ({ s with borrow_records := s.borrow_records.map fun r =>
             if r.record_id = r0.record_id then { r with return_date := some s.now } else r },
         ReturnResult.indexError)
      | some st =>
        (write_stock book_id (st + 1)
           { s with borrow_records := s.borrow_records.map fun r =>
               if r.record_id = r0.record_id then { r with return_date := some s.now } else r },
         ReturnResult.success r0.record_id) := by
  unfold return_book
  rw [hfilter]
  rfl

/-- `borrow_read` only looks at the books table. -/
theorem borrow_read_congr_books (book_id : Nat) (s1 s2 : Store)
    (h : s1.books = s2.books) : borrow_read book_id s1 = borrow_read book_id s2 := by
  unfold borrow_read
  rw [h]

/-- A successful `borrow_read` returns the stock of some stored book row. -/
theorem borrow_read_mem {book_id : Nat} {s : Store} {st : Int}
    (h : borrow_read book_id s = some st) : ∃ bk ∈ s.books, bk.stock = st := by
  unfold borrow_read at h
  rcases hf : s.books.filter (fun b => b.book_id = book_id) with _ | ⟨b, bs⟩
  · rw [hf] at h
    cases h
  · rw [hf] at h
    simp only [List.map_cons, List.head?_cons, Option.some.injEq] at h
    have hb : b ∈ s.books.filter (fun x => x.book_id = book_id) := by
      rw [hf]; exact List.mem_cons_self b bs
    exact ⟨b, List.mem_of_mem_filter hb, h⟩

/-! ### C1 — stock decrement discipline in borrow -/

/-- C1 counterexample.  The stock write of line 92 is the unconditional
`update({"stock": book[0]["stock"] - 1})`: there is no compare-and-swap,
no retry and no Conflict outcome.  In the interleaving where two callers
both run the read of line 85 against the stock-1 store before either runs
the write of line 92, both commits succeed; afterwards the stock is 0 and
two borrow records exist, so two concurrent borrows of a stock-1 book can
both succeed. -/
theorem C1_counterexample :
    borrow_read 1 storeOne = some 1 ∧
    (borrow_commit 10 1 1 storeOne).2 = BorrowResult.success ∧
    (borrow_commit 20 1 1 (borrow_commit 10 1 1 storeOne).1).2 = BorrowResult.success ∧
    (borrow_commit 20 1 1 (borrow_commit 10 1 1 storeOne).1).1.books.map Book.stock = [0] ∧
    (borrow_commit 20 1 1 (borrow_commit 10 1 1 storeOne).1).1.borrow_records.length = 2 := by
  decide

/-- C1 amended.  In `borrow_book` the decrement is an unconditional write
of the locally computed value: once the read of line 85 has returned a
positive stock `st`, the commit succeeds and writes exactly `st - 1` into
every matching book row of whatever store state it runs against — a stale
read is never detected, there is no retry bound and no Conflict failure,
and two concurrent borrows of a stock-1 book can therefore both succeed. -/
theorem C1_theorem (member_id book_id : Nat) (st : Int) (s : Store) (h : 0 < st) :
    (borrow_commit member_id book_id st s).2 = BorrowResult.success ∧
    (borrow_commit member_id book_id st s).1.books =
      s.books.map (fun b => if b.book_id = book_id then { b with stock := st - 1 } else b) := by
  unfold borrow_commit
  rw [if_neg (by omega)]
  exact ⟨rfl, rfl⟩

/-- C1 witness: the amended theorem evaluated on the stock-1 store. -/
theorem C1_witness :
    (0 : Int) < 1 ∧
    ((borrow_commit 10 1 1 storeOne).2 = BorrowResult.success ∧
     (borrow_commit 10 1 1 storeOne).1.books =
       storeOne.books.map (fun b => if b.book_id = 1 then { b with stock := 1 - 1 } else b)) :=
  ⟨by decide, C1_theorem 10 1 1 storeOne (by decide)⟩

/-! ### C3 — no compensating write when the record insert fails -/

/-- C3 counterexample.  On the run where the insert of line 93 raises,
`borrow_book` has already performed the stock write of line 92 and has no
except clause: the store is left with the stock decremented to 0 and no
borrow record at all — the decrement is not rolled back and no Open
record corresponds to it. -/
theorem C3_counterexample :
    (borrow_book_insert_raises 10 1 storeOne).2 = BorrowFaultResult.insertRaised ∧
    (borrow_book_insert_raises 10 1 storeOne).1.books.map Book.stock = [0] ∧
    (borrow_book_insert_raises 10 1 storeOne).1.borrow_records = [] := by
  decide

/-- C3 amended.  `borrow_book` performs no compensating write: whenever
the read returned a positive stock and the insert of line 93 fails, the
exception propagates with the books table already holding the decremented
value `st - 1` and the borrow_records table unchanged — stock is left
decremented without a corresponding Open record, and no Internal-style
rollback path exists in the code. -/
theorem C3_theorem (member_id book_id : Nat) (st : Int) (s : Store)
    (hread : borrow_read book_id s = some st) (hpos : 0 < st) :
    (borrow_book_insert_raises member_id book_id s).2 = BorrowFaultResult.insertRaised ∧
    (borrow_book_insert_raises member_id book_id s).1.borrow_records = s.borrow_records ∧
    (borrow_book_insert_raises member_id book_id s).1.books =
      s.books.map (fun b => if b.book_id = book_id then { b with stock := st - 1 } else b) := by
  have hif : borrow_book_insert_raises member_id book_id s
      = (write_stock book_id (st - 1) s, BorrowFaultResult.insertRaised) := by
    unfold borrow_book_insert_raises
    rw [hread]
    show (if st ≤ 0 then (s, BorrowFaultResult.notAvailable)
          else (write_stock book_id (st - 1) s, BorrowFaultResult.insertRaised)) = _
    rw [if_neg (by omega)]
  rw [hif]
  exact ⟨rfl, rfl, rfl⟩

/-- C3 witness: the amended theorem evaluated on the stock-1 store. -/
theorem C3_witness :
    borrow_read 1 storeOne = some 1 ∧ (0 : Int) < 1 ∧
    ((borrow_book_insert_raises 10 1 storeOne).2 = BorrowFaultResult.insertRaised ∧
     (borrow_book_insert_raises 10 1 storeOne).1.borrow_records = storeOne.borrow_records ∧
     (borrow_book_insert_raises 10 1 storeOne).1.books =
       storeOne.books.map (fun b => if b.book_id = 1 then { b with stock := 1 - 1 } else b)) :=
  ⟨by decide, by decide, C3_theorem 10 1 1 storeOne (by decide) (by decide)⟩

/-! ### C5 — deletion guards -/

/-- Unfolding of `delete_book` as a single conditional. -/
theorem delete_book_eq (book_id : Nat) (s : Store) :
    delete_book book_id s =
      if (s.borrow_records.filter (fun r => r.book_id = book_id ∧ r.return_date = none)).isEmpty
      then ({ s with books := s.books.filter (fun b => ¬ b.book_id = book_id) },
            DeleteResult.deleted)
      else (s, DeleteResult.conflict) := rfl

/-- Unfolding of `delete_member` as a single conditional. -/
theorem delete_member_eq (member_id : Nat) (s : Store) :
    delete_member member_id s =
      if (s.borrow_records.filter (fun r => r.member_id = member_id ∧ r.return_date = none)).isEmpty
      then ({ s with members := s.members.filter (fun m => ¬ m.member_id = member_id) },
            DeleteResult.deleted)
      else (s, DeleteResult.conflict) := rfl

/-- C5.  `delete_book` and `delete_member` fail with the conflict refusal
and leave the store untouched exactly when at least one Open borrow
record (return_date null) references the target, and otherwise remove the
target row (and nothing else). -/
theorem C5_theorem (s : Store) (member_id book_id : Nat) :
    delete_book book_id s =
      (if ∃ r ∈ s.borrow_records, r.book_id = book_id ∧ r.return_date = none
       then (s, DeleteResult.conflict)
       else ({ s with books := s.books.filter (fun b => ¬ b.book_id = book_id) },
             DeleteResult.deleted)) ∧
    delete_member member_id s =
      (if ∃ r ∈ s.borrow_records, r.member_id = member_id ∧ r.return_date = none
       then (s, DeleteResult.conflict)
       else ({ s with members := s.members.filter (fun m => ¬ m.member_id = member_id) },
             DeleteResult.deleted)) := by
  constructor
  · rw [delete_book_eq]
    by_cases h : ∃ r ∈ s.borrow_records, r.book_id = book_id ∧ r.return_date = none
    · have hne : ¬ ((s.borrow_records.filter
          (fun r => r.book_id = book_id ∧ r.return_date = none)).isEmpty = true) := by
        intro hemp
        rw [List.isEmpty_iff] at hemp
        rcases h with ⟨r, hr, hp⟩
        have hrf : r ∈ s.borrow_records.filter
            (fun r => r.book_id = book_id ∧ r.return_date = none) :=
          List.mem_filter.2 ⟨hr, by simpa using hp⟩
        rw [hemp] at hrf
        cases hrf
      rw [if_pos h, if_neg hne]
    · have he : (s.borrow_records.filter
          (fun r => r.book_id = book_id ∧ r.return_date = none)).isEmpty = true := by
        rw [List.isEmpty_iff, List.filter_eq_nil_iff]
        intro r hr hp
        exact h ⟨r, hr, by simpa using hp⟩
      rw [if_neg h, if_pos he]
  · rw [delete_member_eq]
    by_cases h : ∃ r ∈ s.borrow_records, r.member_id = member_id ∧ r.return_date = none
    · have hne : ¬ ((s.borrow_records.filter
          (fun r => r.member_id = member_id ∧ r.return_date = none)).isEmpty = true) := by
        intro hemp
        rw [List.isEmpty_iff] at hemp
        rcases h with ⟨r, hr, hp⟩
        have hrf : r ∈ s.borrow_records.filter
            (fun r => r.member_id = member_id ∧ r.return_date = none) :=
          List.mem_filter.2 ⟨hr, by simpa using hp⟩
        rw [hemp] at hrf
        cases hrf
      rw [if_pos h, if_neg hne]
    · have he : (s.borrow_records.filter
          (fun r => r.member_id = member_id ∧ r.return_date = none)).isEmpty = true := by
        rw [List.isEmpty_iff, List.filter_eq_nil_iff]
        intro r hr hp
        exact h ⟨r, hr, by simpa using hp⟩
      rw [if_neg h, if_pos he]

/-! ### C2 — non-negativity of stock -/

/-- C2 counterexample.  `update_book_stock` writes its argument with no
validation: updating book 1 of the all-non-negative stock-3 store to -5
leaves a book with negative stock. -/
theorem C2_counterexample :
    (update_book_stock 1 (-5) storeStock3).1.books.map Book.stock = [-5] ∧
    ¬ stocks_nonneg (update_book_stock 1 (-5) storeStock3).1 := by
  decide

/-- Stock write with a non-negative value preserves the invariant. -/
theorem stocks_nonneg_write (book_id : Nat) (v : Int) {s : Store}
    (hs : stocks_nonneg s) (hv : 0 ≤ v) : stocks_nonneg (write_stock book_id v s) := by
  intro b hb
  replace hb : b ∈ s.books.map
      (fun a => if a.book_id = book_id then { a with stock := v } else a) := hb
  rcases List.mem_map.1 hb with ⟨a, ha, hab⟩
  by_cases h : a.book_id = book_id
  · rw [if_pos h] at hab
    rw [← hab]
    exact hv
  · rw [if_neg h] at hab
    rw [← hab]
    exact hs a ha

/-- C2 amended.  One step of any public operation preserves non-negativity
of every stock provided its stock argument (when it has one) is
non-negative: borrow, return and both deletes preserve the invariant
unconditionally, add and update preserve it for non-negative arguments —
but nothing validates the arguments, so a negative argument to the update
(or the add) writes a negative stock. -/
theorem C2_theorem (s : Store)
    (m1 b1 m2 b2 m3 b3 b4 : Nat) (title author category : String) (st ns : Int)
    (hs : stocks_nonneg s) (hst : 0 ≤ st) (hns : 0 ≤ ns) :
    stocks_nonneg (borrow_book m1 b1 s).1 ∧
    stocks_nonneg (return_book m2 b2 s).1 ∧
    stocks_nonneg (delete_member m3 s).1 ∧
    stocks_nonneg (delete_book b3 s).1 ∧
    stocks_nonneg (add_book s title author category st).1 ∧
    stocks_nonneg (update_book_stock b4 ns s).1 := by
  refine ⟨?_, ?_, ?_, ?_, ?_, ?_⟩
  · rcases hrd : borrow_read b1 s with _ | st1
    · have hb : borrow_book m1 b1 s = (s, BorrowResult.notFound) := by
        unfold borrow_book
        rw [hrd]
      rw [hb]
      exact hs
    · by_cases hle : st1 ≤ 0
      · have hb : borrow_book m1 b1 s = (s, BorrowResult.notAvailable) := by
          unfold borrow_book
          rw [hrd]
          show borrow_commit m1 b1 st1 s = _
          unfold borrow_commit
          rw [if_pos hle]
        rw [hb]
        exact hs
      · rw [borrow_book_pos m1 b1 s st1 hrd (by omega)]
        have hw : stocks_nonneg (write_stock b1 (st1 - 1) s) :=
          stocks_nonneg_write b1 (st1 - 1) hs (by omega)
        exact hw
  · rcases hfil : s.borrow_records.filter (fun r => open_for m2 b2 r) with _ | ⟨r0, rest⟩
    · have hb : return_book m2 b2 s = (s, ReturnResult.noActiveBorrow) := by
        unfold return_book
        rw [hfil]
        rfl
      rw [hb]
      exact hs
    · rw [return_book_cons m2 b2 s r0 rest hfil]
      rcases hrd : borrow_read b2 { s with
          borrow_records := s.borrow_records.map fun r =>
            if r.record_id = r0.record_id then { r with return_date := some s.now } else r }
        with _ | st1
      · exact hs
      · rcases borrow_read_mem hrd with ⟨bk, hbm, hbs⟩
        have hsX : stocks_nonneg { s with
            borrow_records := s.borrow_records.map fun r =>
              if r.record_id = r0.record_id then { r with return_date := some s.now } else r } := hs
        have h0 : (0 : Int) ≤ bk.stock := hsX bk hbm
        have h1 : (0 : Int) ≤ st1 := by rw [← hbs]; exact h0
        exact stocks_nonneg_write b2 (st1 + 1) hsX (by omega)
  · rw [delete_member_eq]
    split
    · exact hs
    · exact hs
  · rw [delete_book_eq]
    split
    · intro b hb
      exact hs b (List.mem_of_mem_filter hb)
    · exact hs
  · intro b hb
    replace hb : b ∈ s.books ++
        [{ book_id := s.next_book_id, title := title, author := author,
           category := category, stock := st }] := hb
    rcases List.mem_append.1 hb with h | h
    · exact hs b h
    · simp only [List.mem_singleton] at h
      rw [h]
      exact hst
  · exact stocks_nonneg_write b4 ns hs hns

/-- C2 witness: the amended theorem evaluated on the stock-1 store with
stock arguments 1 and 2. -/
theorem C2_witness :
    stocks_nonneg storeOne ∧ (0 : Int) ≤ 1 ∧ (0 : Int) ≤ 2 ∧
    (stocks_nonneg (borrow_book 10 1 storeOne).1 ∧
     stocks_nonneg (return_book 10 1 storeOne).1 ∧
     stocks_nonneg (delete_member 10 storeOne).1 ∧
     stocks_nonneg (delete_book 1 storeOne).1 ∧
     stocks_nonneg (add_book storeOne "t" "a" "c" 1).1 ∧
     stocks_nonneg (update_book_stock 1 2 storeOne).1) :=
  ⟨by decide, by decide, by decide,
   C2_theorem storeOne 10 1 10 1 10 1 1 "t" "a" "c" 1 2 (by decide) (by decide) (by decide)⟩

/-! ### C4 — borrow then return round trip -/

/-- `borrow_read` ignores the borrow_records table. -/
theorem borrow_read_update_records (book_id : Nat) (s : Store) (l : List BorrowRecord) :
    borrow_read book_id { s with borrow_records := l } = borrow_read book_id s := rfl

/-- When the id filter returns a single row, every stored row with that id
is that row. -/
theorem eq_of_filter_singleton {l : List Book} {book_id : Nat} {bk : Book}
    (h : l.filter (fun b => b.book_id = book_id) = [bk]) :
    ∀ x ∈ l, x.book_id = book_id → x = bk := by
  intro x hx hid
  have hxf : x ∈ l.filter (fun b => b.book_id = book_id) :=
    List.mem_filter.2 ⟨hx, by simpa using hid⟩
  rw [h] at hxf
  simpa using hxf

/-- Filtering by book id commutes with the stock write. -/
theorem filter_write_books (l : List Book) (book_id : Nat) (v : Int) :
    ((l.map fun b => if b.book_id = book_id then { b with stock := v } else b).filter
        (fun b => b.book_id = book_id))
      = (l.filter fun b => b.book_id = book_id).map (fun b => { b with stock := v }) := by
  induction l with
  | nil => rfl
  | cons x xs ih =>
    by_cases h : x.book_id = book_id
    · simp [h, ih]
    · simp [h, ih]

/-- Writing the original stock of the unique matching row back on top of
an intermediate stock write restores the books table exactly. -/
theorem write_write_restore (l : List Book) (book_id : Nat) (bk : Book)
    (h : ∀ x ∈ l, x.book_id = book_id → x = bk) (v : Int) :
    ((l.map fun b => if b.book_id = book_id then { b with stock := v } else b).map
        fun b => if b.book_id = book_id then { b with stock := bk.stock } else b) = l := by
  induction l with
  | nil => rfl
  | cons x xs ih =>
    have ihx := ih (fun y hy hyid => h y (List.mem_cons_of_mem _ hy) hyid)
    simp only [List.map_cons]
    by_cases hx : x.book_id = book_id
    · rw [if_pos hx]
      have hx2 : ({ x with stock := v } : Book).book_id = book_id := hx
      rw [if_pos hx2, ihx]
      have hxbk := h x (List.mem_cons_self x xs) hx
      rw [hxbk]
    · rw [if_neg hx, if_neg hx, ihx]

/-- A record-closing map keyed on an id no stored record carries is the
identity. -/
theorem map_close_eq_self {xs : List BorrowRecord} {rid now : Nat}
    (h : ∀ r ∈ xs, ¬ r.record_id = rid) :
    (xs.map fun r => if r.record_id = rid then { r with return_date := some now } else r)
      = xs := by
  induction xs with
  | nil => rfl
  | cons x xs ih =>
    simp only [List.map_cons]
    rw [if_neg (h x (List.mem_cons_self x xs)),
        ih (fun r hr => h r (List.mem_cons_of_mem _ hr))]

/-- Closing the Open record `r0` of the pair (selected through its unique
record id) raises the closed-record count of the pair by exactly one. -/
theorem filter_close_length (m b now : Nat) (l : List BorrowRecord) (r0 : BorrowRecord)
    (hmem : r0 ∈ l) (hnd : (l.map BorrowRecord.record_id).Nodup)
    (hopen : open_for m b r0) :
    ((l.map fun r => if r.record_id = r0.record_id then { r with return_date := some now } else r).filter
        (fun r => r.member_id = m ∧ r.book_id = b ∧ ¬ r.return_date = none)).length
      = (l.filter fun r => r.member_id = m ∧ r.book_id = b ∧ ¬ r.return_date = none).length + 1 := by
  induction l with
  | nil => cases hmem
  | cons x xs ih =>
    rw [List.map_cons] at hnd
    have hnotin := (List.nodup_cons.1 hnd).1
    have hndxs := (List.nodup_cons.1 hnd).2
    rcases List.mem_cons.1 hmem with heq | hmem2
    · subst heq
      obtain ⟨h1, h2, h3⟩ := hopen
      have hxs : ∀ r ∈ xs, ¬ r.record_id = r0.record_id := by
        intro r hr hEq
        exact hnotin (hEq ▸ List.mem_map_of_mem BorrowRecord.record_id hr)
      simp only [List.map_cons, if_pos rfl, map_close_eq_self hxs]
      rw [List.filter_cons, List.filter_cons]
      simp [h1, h2, h3]
    · have hx_ne : ¬ x.record_id = r0.record_id := by
        intro hEq
        have hr0 : r0.record_id ∈ xs.map BorrowRecord.record_id :=
          List.mem_map_of_mem BorrowRecord.record_id hmem2
        exact hnotin (hEq ▸ hr0)
      simp only [List.map_cons, if_neg hx_ne]
      rw [List.filter_cons, List.filter_cons]
      have ihr := ih hmem2 hndxs
      by_cases hpx : (decide (x.member_id = m ∧ x.book_id = b ∧ ¬ x.return_date = none)) = true
      · rw [if_pos hpx, if_pos hpx]
        simp only [List.length_cons]
        omega
      · rw [if_neg hpx, if_neg hpx]
        exact ihr

/-- C4 counterexample.  On a store that already holds a Closed record of
the pair (member 5, book 1) and a stock-2 book, borrow then return does
restore the stock to 2, but leaves two Closed records of the pair — not
exactly one as claimed for every store state. -/
theorem C4_counterexample :
    borrow_read 1 storeClosedRec = some 2 ∧
    (return_book 5 1 (borrow_book 5 1 storeClosedRec).1).1.books.map Book.stock = [2] ∧
    ¬ closed_count 5 1 (return_book 5 1 (borrow_book 5 1 storeClosedRec).1).1 = 1 := by
  decide

/-- C4 amended.  For every store in which the book id denotes exactly one
book row with positive stock, record ids are pairwise distinct and the
record id sequence is fresh: `borrow_book` then `return_book` on the same
pair with no interleaving restores the books table exactly (stock back to
its prior value) and increases the number of Closed records of the pair
by exactly one — so exactly one Closed record is left precisely when the
store held none for the pair before. -/
theorem C4_theorem (member_id book_id : Nat) (s : Store) (bk : Book)
    (hbk : s.books.filter (fun b => b.book_id = book_id) = [bk])
    (hpos : 0 < bk.stock)
    (hfresh : ∀ r ∈ s.borrow_records, r.record_id < s.next_record_id)
    (hnd : (s.borrow_records.map BorrowRecord.record_id).Nodup) :
    (return_book member_id book_id (borrow_book member_id book_id s).1).1.books = s.books ∧
    closed_count member_id book_id
        (return_book member_id book_id (borrow_book member_id book_id s).1).1
      = closed_count member_id book_id s + 1 := by
  have hread : borrow_read book_id s = some bk.stock := by
    unfold borrow_read
    rw [hbk]
    rfl
  have hb1 : (borrow_book member_id book_id s).1
      = insert_record member_id book_id (write_stock book_id (bk.stock - 1) s) := by
    rw [borrow_book_pos member_id book_id s bk.stock hread hpos]
  rw [hb1]
  have hfilS1 : ((insert_record member_id book_id
        (write_stock book_id (bk.stock - 1) s)).borrow_records.filter
        (fun r => open_for member_id book_id r))
      = (s.borrow_records.filter fun r => open_for member_id book_id r)
        ++ [⟨s.next_record_id, member_id, book_id, s.now, none⟩] := by
    show ((s.borrow_records
        ++ [(⟨s.next_record_id, member_id, book_id, s.now, none⟩ : BorrowRecord)]).filter
        (fun r => open_for member_id book_id r)) = _
    rw [List.filter_append]
    congr 1
    simp [open_for]
  have hreadS1 : borrow_read book_id
      (insert_record member_id book_id (write_stock book_id (bk.stock - 1) s))
      = some (bk.stock - 1) := by
    show (((s.books.map fun b =>
        if b.book_id = book_id then { b with stock := bk.stock - 1 } else b).filter
        (fun b => b.book_id = book_id)).map Book.stock).head? = some (bk.stock - 1)
    rw [filter_write_books, hbk]
    rfl
  have hrestore : ((s.books.map fun b =>
      if b.book_id = book_id then { b with stock := bk.stock - 1 } else b).map
      fun b => if b.book_id = book_id then { b with stock := bk.stock - 1 + 1 } else b)
      = s.books := by
    have hsimp : bk.stock - 1 + 1 = bk.stock := by omega
    rw [hsimp]
    exact write_write_restore s.books book_id bk (eq_of_filter_singleton hbk) (bk.stock - 1)
  rcases hfil : s.borrow_records.filter (fun r => open_for member_id book_id r)
    with _ | ⟨r0, rest⟩
  · rw [hfil, List.nil_append] at hfilS1
    rw [return_book_cons member_id book_id
        (insert_record member_id book_id (write_stock book_id (bk.stock - 1) s))
        ⟨s.next_record_id, member_id, book_id, s.now, none⟩ [] hfilS1]
    rw [borrow_read_update_records, hreadS1]
    constructor
    · exact hrestore
    · show (((s.borrow_records
          ++ [(⟨s.next_record_id, member_id, book_id, s.now, none⟩ : BorrowRecord)]).map
          fun r => if r.record_id = s.next_record_id
                   then { r with return_date := some s.now } else r).filter
          (fun r => r.member_id = member_id ∧ r.book_id = book_id ∧ ¬ r.return_date = none)).length
        = (s.borrow_records.filter fun r =>
            r.member_id = member_id ∧ r.book_id = book_id ∧ ¬ r.return_date = none).length + 1
      have hidm : (s.borrow_records.map fun r =>
          if r.record_id = s.next_record_id then { r with return_date := some s.now } else r)
          = s.borrow_records :=
        map_close_eq_self (fun r hr => Nat.ne_of_lt (hfresh r hr))
      rw [List.map_append, hidm, List.filter_append, List.length_append]
      simp
  · rw [hfil, List.cons_append] at hfilS1
    rw [return_book_cons member_id book_id
        (insert_record member_id book_id (write_stock book_id (bk.stock - 1) s))
        r0 (rest ++ [⟨s.next_record_id, member_id, book_id, s.now, none⟩]) hfilS1]
    rw [borrow_read_update_records, hreadS1]
    have hr0f : r0 ∈ s.borrow_records.filter (fun r => open_for member_id book_id r) := by
      rw [hfil]
      exact List.mem_cons_self r0 rest
    have hr0mem : r0 ∈ s.borrow_records := List.mem_of_mem_filter hr0f
    have hr0open : open_for member_id book_id r0 :=
      of_decide_eq_true (List.mem_filter.1 hr0f).2
    have hRne : ¬ (s.next_record_id = r0.record_id) := by
      have := hfresh r0 hr0mem
      omega
    constructor
    · exact hrestore
    · show (((s.borrow_records
          ++ [(⟨s.next_record_id, member_id, book_id, s.now, none⟩ : BorrowRecord)]).map
          fun r => if r.record_id = r0.record_id
                   then { r with return_date := some s.now } else r).filter
          (fun r => r.member_id = member_id ∧ r.book_id = book_id ∧ ¬ r.return_date = none)).length
        = (s.borrow_records.filter fun r =>
            r.member_id = member_id ∧ r.book_id = book_id ∧ ¬ r.return_date = none).length + 1
      rw [List.map_append, List.filter_append, List.length_append]
      have h2 := filter_close_length member_id book_id s.now s.borrow_records r0
        hr0mem hnd hr0open
      rw [h2]
      simp [hRne]

/-- C4 witness: the amended theorem evaluated on the one-book stock-1
store with no prior records. -/
theorem C4_witness :
    storeOne.books.filter (fun b => b.book_id = 1) = [exBook 1 1] ∧
    (0 : Int) < (exBook 1 1).stock ∧
    (∀ r ∈ storeOne.borrow_records, r.record_id < storeOne.next_record_id) ∧
    (storeOne.borrow_records.map BorrowRecord.record_id).Nodup ∧
    ((return_book 10 1 (borrow_book 10 1 storeOne).1).1.books = storeOne.books ∧
     closed_count 10 1 (return_book 10 1 (borrow_book 10 1 storeOne).1).1
       = closed_count 10 1 storeOne + 1) :=
  ⟨by decide, by decide, by decide, by decide,
   C4_theorem 10 1 storeOne (exBook 1 1) (by decide) (by decide) (by decide) (by decide)⟩

/-! ### C6 — tie-break of the top-borrowed report -/

/-- C6 counterexample.  Line 126 sorts only by count
(`sorted(..., key=lambda x: x[1], reverse=True)`); Python sorting is
stable, so equal counts keep dict insertion order, which is the order of
first occurrence in the records, not ascending book id.  Over records
giving book 1 count 3, book 2 count 3 and book 3 count 1, with the
records of book 2 listed first, the report returns [2, 1] and not the
claimed [1, 2]. -/
theorem C6_counterexample :
    top_borrowed_ids 2 storeReportB = [2, 1] ∧
    ¬ top_borrowed_ids 2 storeReportB = [1, 2] := by
  decide

/-- C6 amended.  `report_top_borrowed` groups all records by book, counts
them and stable-sorts descending by count with ties kept in
first-occurrence order of the records (no book-id tie-break exists).
Over the example profile (book 1 -> 3, book 2 -> 3, book 3 -> 1) the
2-limit report is [1, 2] when the records of book 1 come first and
[2, 1] when the records of book 2 come first; in neither order is it
[1, 3], because the strictly larger count of book 2 keeps it above
book 3. -/
theorem C6_theorem :
    top_borrowed_ids 2 storeReportA = [1, 2] ∧
    top_borrowed_ids 2 storeReportB = [2, 1] ∧
    ¬ top_borrowed_ids 2 storeReportA = [1, 3] ∧
    ¬ top_borrowed_ids 2 storeReportB = [1, 3] := by
  decide

/-! ### C7 — updateStock performs no validation -/

/-- C7 counterexample.  `update_book_stock(1, -1)` on a stock-3 book does
not fail with InvalidArgument and does not leave the stock unchanged: it
writes -1 into the row and returns the updated row, so a negative stock
is written through this operation. -/
theorem C7_counterexample :
    (update_book_stock 1 (-1) storeStock3).1.books.map Book.stock = [-1] ∧
    (update_book_stock 1 (-1) storeStock3).2 = [⟨1, "t", "a", "c", -1⟩] := by
  decide

/-- C7 amended.  `update_book_stock` validates nothing: for every
`new_stock`, negative values included, every book row carrying the target
id holds exactly `new_stock` afterwards; no InvalidArgument failure path
exists in the function. -/
theorem C7_theorem (book_id : Nat) (new_stock : Int) (s : Store) (b : Book)
    (hb : b ∈ (update_book_stock book_id new_stock s).1.books)
    (hid : b.book_id = book_id) :
    b.stock = new_stock := by
  have hbooks : (update_book_stock book_id new_stock s).1.books
      = s.books.map (fun x => if x.book_id = book_id then { x with stock := new_stock } else x) :=
    rfl
  rw [hbooks] at hb
  rcases List.mem_map.1 hb with ⟨a, ha, hab⟩
  by_cases h : a.book_id = book_id
  · rw [if_pos h] at hab
    rw [← hab]
  · rw [if_neg h] at hab
    rw [← hab] at hid
    exact absurd hid h

/-- C7 witness: the amended theorem evaluated on the stock-3 store with
new stock -1. -/
theorem C7_witness :
    (⟨1, "t", "a", "c", -1⟩ : Book) ∈ (update_book_stock 1 (-1) storeStock3).1.books ∧
    (⟨1, "t", "a", "c", -1⟩ : Book).book_id = 1 ∧
    (⟨1, "t", "a", "c", -1⟩ : Book).stock = -1 :=
  ⟨by decide, by decide,
   C7_theorem 1 (-1) storeStock3 ⟨1, "t", "a", "c", -1⟩ (by decide) (by decide)⟩

/-! ### C8 — which record return closes -/

/-- C8 counterexample.  With two Open records of the pair (member 5,
book 1) — borrow_date 10 first in table order, borrow_date 5 second —
`return_book` closes record 1 (date 10), not the record with the
earliest borrow_date (record 2, date 5, which stays open): the limit(1)
select of line 97 has no ordering clause. -/
theorem C8_counterexample :
    (return_book 5 1 storeTwoOpen).2 = ReturnResult.success 1 ∧
    (return_book 5 1 storeTwoOpen).1.borrow_records =
      [⟨1, 5, 1, 10, some 100⟩, ⟨2, 5, 1, 5, none⟩] ∧
    (∀ r ∈ storeTwoOpen.borrow_records, open_for 5 1 r → 5 ≤ r.borrow_date) ∧
    ¬ (return_book 5 1 storeTwoOpen).2 = ReturnResult.success 2 := by
  decide

/-- C8 amended.  When several Open records exist for the pair,
`return_book` does not crash (provided the book row exists) and
deterministically closes the first matching record in table order — the
head of the limit(1) filter of line 97 — which need not be the record
with the earliest borrow_date. -/
theorem C8_theorem (member_id book_id : Nat) (s : Store) (r0 : BorrowRecord)
    (rest : List BorrowRecord) (b : Book) (bs : List Book)
    (hfilter : s.borrow_records.filter (fun r => open_for member_id book_id r) = r0 :: rest)
    (hbooks : s.books.filter (fun x => x.book_id = book_id) = b :: bs) :
    (return_book member_id book_id s).2 = ReturnResult.success r0.record_id := by
  rw [return_book_cons member_id book_id s r0 rest hfilter]
  have hread : borrow_read book_id { s with
      borrow_records := s.borrow_records.map fun r =>
        if r.record_id = r0.record_id then { r with return_date := some s.now } else r }
      = some b.stock := by
    show ((s.books.filter (fun x => x.book_id = book_id)).map Book.stock).head? = some b.stock
    rw [hbooks]
    rfl
  rw [hread]

/-- C8 witness: the amended theorem evaluated on the two-open-records
store, where the closed record is the one with the later borrow_date. -/
theorem C8_witness :
    storeTwoOpen.borrow_records.filter (fun r => open_for 5 1 r) =
      (⟨1, 5, 1, 10, none⟩ : BorrowRecord) :: [⟨2, 5, 1, 5, none⟩] ∧
    storeTwoOpen.books.filter (fun x => x.book_id = 1) = exBook 1 0 :: [] ∧
    (return_book 5 1 storeTwoOpen).2 =
      ReturnResult.success (⟨1, 5, 1, 10, none⟩ : BorrowRecord).record_id :=
  ⟨by decide, by decide,
   C8_theorem 5 1 storeTwoOpen ⟨1, 5, 1, 10, none⟩ [⟨2, 5, 1, 5, none⟩]
     (exBook 1 0) [] (by decide) (by decide)⟩

/-! ### C9 — failed borrow leaves the store unchanged -/

/-- C9.  When `borrow_book` fails because no book row matches (line 87)
or because the read stock is ≤ 0 (line 90), it returns before any write:
the store is left completely unchanged — no stock modified, no record
inserted. -/
theorem C9_theorem (member_id book_id : Nat) (s : Store)
    (h : borrow_read book_id s = none ∨
         ∃ st, borrow_read book_id s = some st ∧ st ≤ 0) :
    (borrow_book member_id book_id s).1 = s := by
  unfold borrow_book
  rcases h with h | ⟨st, h, hst⟩
  · rw [h]
  · rw [h]
    show (borrow_commit member_id book_id st s).1 = s
    unfold borrow_commit
    rw [if_pos hst]

/-- C9 witness: borrowing the absent book 2 from the one-book store
leaves the store unchanged. -/
theorem C9_witness :
    (borrow_read 2 storeOne = none ∨
      ∃ st, borrow_read 2 storeOne = some st ∧ st ≤ 0) ∧
    (borrow_book 9 2 storeOne).1 = storeOne :=
  ⟨Or.inl (by decide), C9_theorem 9 2 storeOne (Or.inl (by decide))⟩

/-! ### C10 — default stock of add_book -/

/-- C10.  The Python signature `def add_book(title, author, category,
stock=1)` defaults the stock argument to 1: calling `add_book` without an
explicit stock creates the book row with stock 1, not 0. -/
theorem C10_theorem (s : Store) (title author category : String) :
    (add_book s title author category).1.books
      = s.books ++ [⟨s.next_book_id, title, author, category, 1⟩] ∧
    (add_book s title author category).2.stock = 1 ∧
    ¬ (add_book s title author category).2.stock = 0 := by
  refine ⟨rfl, rfl, ?_⟩
  show ¬ (1 : Int) = 0
  decide

end LibraryCLI
